import Mathlib

/-!
Verification development for the price-adjuster service.

The service reacts to catalog change events and recomputes a product's sale
price and reference ("compare-at") price.  The source consists of several
variants of the same Express service:

* `src/index.js` — random base discount (25–60) plus seasonal, flash-sale and
  volume bonuses, psychological price rounding, metafield ledger.
* `src/unnamed/part_003` — category-aware markup policy, eligibility gate
  against a sale collection, in-memory debounce set with a 30 s TTL.
* `src/unnamed/part_004` — curated discount set and the charm-price formula
  `ceil(basePrice * multiplier * 100 - 1) / 100`.

Currency amounts are embedded as rationals (`ℚ`); the numeric effect of the
JavaScript `toFixed(2)` formatting on an exact value is rounding to two
decimal places.  Randomness (`Math.random()`) is passed explicitly as a
rational `r` with `0 ≤ r < 1`; the clock is passed as month/hour numbers or
as a rational timestamp where relevant.
-/

namespace PriceAdjuster

/-- Rounding a rational to two decimal places: the numeric content of the
JavaScript `Number.prototype.toFixed(2)` applied to an exact value. -/
def toFixed2 (q : ℚ) : ℚ := round (q * 100) / 100

/-- `applyPsychologicalPricing` (src/index.js lines 24–26):
`(Math.floor(price) - 0.01).toFixed(2)` — round down to the whole unit and
subtract one cent.  The result already has two decimals, so `toFixed(2)` is
numerically the identity here. -/
def applyPsychologicalPricing (price : ℚ) : ℚ := ⌊price⌋ - 1/100

/-- `toReferencePrice` — the charm-price formula of
src/unnamed/part_004 line 54:
`Math.ceil(basePrice * markupMultiplier * 100 - 1) / 100`. -/
def toReferencePrice (basePrice multiplier : ℚ) : ℚ :=
  ⌈basePrice * multiplier * 100 - 1⌉ / 100

/-- `roundToNicePrice` (src/unnamed/part_003 lines 95–97):
`Math.ceil(price) - 0.01`. -/
def roundToNicePrice (price : ℚ) : ℚ := ⌈price⌉ - 1/100

/-- C3, counterexample.  The claim states `roundForDisplay` clamps its result
to a minimum floor of 0.01 and so is ≥ 0.01 for every positive input.  The
code (src/index.js lines 24–26) has no such clamp: on input 0.5 it returns
`floor(0.5) - 0.01 = -0.01`, below the floor and negative. -/
theorem C3_counterexample :
    ¬ (∀ p : ℚ, 0 < p →
        1/100 ≤ applyPsychologicalPricing p ∧ applyPsychologicalPricing p ≤ p) := by
  intro h
  have h2 := (h (1/2) (by norm_num)).1
  norm_num [applyPsychologicalPricing] at h2

/-- C3 (amended): `applyPsychologicalPricing` always returns
`floor(amount) - 0.01` with no floor clamp; for every positive input the
output is ≤ the input, and the output is ≥ the 0.01 floor exactly when the
input is ≥ 1 (inputs below one whole unit produce `-0.01`). -/
theorem C3_display_rounding (p : ℚ) (hp : 0 < p) :
    applyPsychologicalPricing p ≤ p ∧
      (1/100 ≤ applyPsychologicalPricing p ↔ 1 ≤ p) := by
  unfold applyPsychologicalPricing
  have hfl : (⌊p⌋ : ℚ) ≤ p := Int.floor_le p
  refine ⟨by linarith, ?_, ?_⟩
  · intro h
    have h1 : (0 : ℚ) < (⌊p⌋ : ℚ) := by linarith
    have h2 : (0 : ℤ) < ⌊p⌋ := by exact_mod_cast h1
    have h3 : (1 : ℤ) ≤ ⌊p⌋ := h2
    have h4 : (1 : ℚ) ≤ (⌊p⌋ : ℚ) := by exact_mod_cast h3
    linarith
  · intro h
    have h1 : (1 : ℤ) ≤ ⌊p⌋ := Int.le_floor.mpr (by exact_mod_cast h)
    have h2 : (1 : ℚ) ≤ (⌊p⌋ : ℚ) := by exact_mod_cast h1
    linarith

/-- Witness for C3_display_rounding at the concrete input 2. -/
theorem C3_display_rounding_witness :
    0 < (2 : ℚ) ∧
      (applyPsychologicalPricing 2 ≤ 2 ∧
        (1/100 ≤ applyPsychologicalPricing 2 ↔ 1 ≤ (2 : ℚ))) :=
  ⟨by norm_num, C3_display_rounding 2 (by norm_num)⟩

/-- C2, counterexample.  The claim states `toReferencePrice p m > p` for every
`p > 0` and `m > 1`.  At `p = 0.01`, `m = 2` the formula gives
`ceil(0.01 * 2 * 100 - 1) / 100 = ceil(1) / 100 = 0.01 = p`, not above `p`. -/
theorem C2_counterexample :
    ¬ (∀ p m : ℚ, 0 < p → 1 < m → p < toReferencePrice p m) := by
  intro h
  have h2 := h (1/100) 2 (by norm_num) (by norm_num)
  norm_num [toReferencePrice] at h2

/-- C2 (amended): for every base price `p > 0` and multiplier `m > 1` whose
margin satisfies `p * (m - 1) > 0.01` (one cent), the charm-price formula
`ceil(p * m * 100 - 1) / 100` yields a result strictly above `p`. -/
theorem C2_reference_exceeds_base (p m : ℚ) (hp : 0 < p) (hm : 1 < m)
    (hgap : 1/100 < p * (m - 1)) : p < toReferencePrice p m := by
  unfold toReferencePrice
  have h1 : (p * m * 100 - 1 : ℚ) ≤ (⌈p * m * 100 - 1⌉ : ℚ) := Int.le_ceil _
  rw [lt_div_iff (by norm_num : (0:ℚ) < 100)]
  nlinarith

/-- Witness for C2_reference_exceeds_base at `p = 10`, `m = 2`. -/
theorem C2_reference_exceeds_base_witness :
    0 < (10 : ℚ) ∧ 1 < (2 : ℚ) ∧ 1/100 < (10 : ℚ) * (2 - 1) ∧
      10 < toReferencePrice 10 2 :=
  ⟨by norm_num, by norm_num, by norm_num,
    C2_reference_exceeds_base 10 2 (by norm_num) (by norm_num) (by norm_num)⟩

/-- `getRandomDiscount` (src/index.js lines 19–21):
`Math.floor(Math.random() * (max - min + 1)) + min` with defaults 25 and 60.
The random draw `r ∈ [0, 1)` is passed explicitly. -/
def getRandomDiscount (r : ℚ) (low : ℤ := 25) (high : ℤ := 60) : ℤ :=
  ⌊r * (high - low + 1)⌋ + low

/-- `getSeasonalBonus` (src/index.js lines 29–37): extra discount for
holiday months (JavaScript months are 0-based: 11 = December, 6 = July,
3 = April). -/
def getSeasonalBonus (month : ℕ) : ℤ :=
  if month = 11 then 10 else if month = 6 then 5 else if month = 3 then 5 else 0

/-- `getVolumeDiscount` (src/index.js lines 40–44): extra discount for
higher-priced items. -/
def getVolumeDiscount (price : ℚ) : ℤ :=
  if price ≥ 100 then 5 else if price ≥ 50 then 3 else 0

/-- `isLimitedTimeOffer` (src/index.js lines 47–52): flash sale during peak
shopping hours (12pm–2pm and 7pm–9pm). -/
def isLimitedTimeOffer (hour : ℕ) : Bool :=
  (12 ≤ hour && hour ≤ 14) || (19 ≤ hour && hour ≤ 21)

/-- Total discount applied to one variant by `updateProductPrice`
(src/index.js lines 65–74 and 117–121): random base discount, plus seasonal
bonus, plus 5 during a flash sale, plus the volume discount for the
variant's price. -/
def indexTotalDiscount (r : ℚ) (month hour : ℕ) (variantPrice : ℚ) : ℤ :=
  getRandomDiscount r + getSeasonalBonus month +
    (if isLimitedTimeOffer hour then 5 else 0) + getVolumeDiscount variantPrice

/-- Sale price written for one variant by `updateProductPrice`
(src/index.js line 125):
`applyPsychologicalPricing(variantPrice * (1 - totalDiscount/100))`. -/
def indexSalePrice (r : ℚ) (month hour : ℕ) (variantPrice : ℚ) : ℚ :=
  applyPsychologicalPricing
    (variantPrice * (1 - (indexTotalDiscount r month hour variantPrice : ℚ) / 100))

/-- C1, counterexample.  The claim states the sale price computed from the
total discount is always strictly positive.  With random draw 0 (base
discount 25), no seasonal/flash/volume bonus, and a variant priced 1.00, the
code computes `applyPsychologicalPricing(1 * 0.75) = floor(0.75) - 0.01 =
-0.01`, which is not positive. -/
theorem C1_counterexample :
    ¬ (∀ (r : ℚ) (month hour : ℕ) (variantPrice : ℚ),
        0 ≤ r → r < 1 → 0 < variantPrice →
          indexTotalDiscount r month hour variantPrice ≤ 90 ∧
            0 < indexSalePrice r month hour variantPrice) := by
  intro h
  have h2 := (h 0 0 0 1 (by norm_num) (by norm_num) (by norm_num)).2
  norm_num [indexSalePrice, indexTotalDiscount, getRandomDiscount,
    getSeasonalBonus, getVolumeDiscount, isLimitedTimeOffer,
    applyPsychologicalPricing] at h2

/-- C1 (amended): the total applied discount (base + seasonal + flash +
volume bonuses) never exceeds the 90 % ceiling (it is in fact at most 80),
and the sale price computed from it is strictly positive whenever the
discounted raw amount `variantPrice * (1 - totalDiscount/100)` is at least
one whole currency unit (for smaller amounts the `floor - 0.01` transform
can produce a non-positive price). -/
theorem C1_discount_ceiling (r : ℚ) (month hour : ℕ) (variantPrice : ℚ)
    (hr0 : 0 ≤ r) (hr1 : r < 1) :
    indexTotalDiscount r month hour variantPrice ≤ 90 ∧
      (1 ≤ variantPrice *
          (1 - (indexTotalDiscount r month hour variantPrice : ℚ) / 100) →
        0 < indexSalePrice r month hour variantPrice) := by
  constructor
  · have hf : ⌊r * 36⌋ ≤ 35 := by
      have h36 : r * 36 < ((36 : ℤ) : ℚ) := by push_cast; nlinarith
      have := Int.floor_lt.mpr h36
      omega
    unfold indexTotalDiscount getRandomDiscount getSeasonalBonus
      getVolumeDiscount
    norm_num
    split_ifs <;> omega
  · intro hge
    unfold indexSalePrice applyPsychologicalPricing
    have h1 : (1 : ℤ) ≤
        ⌊variantPrice *
          (1 - (indexTotalDiscount r month hour variantPrice : ℚ) / 100)⌋ :=
      Int.le_floor.mpr (by exact_mod_cast hge)
    have h2 : (1 : ℚ) ≤
        (⌊variantPrice *
          (1 - (indexTotalDiscount r month hour variantPrice : ℚ) / 100)⌋ : ℚ) := by
      exact_mod_cast h1
    linarith

/-- Witness for C1_discount_ceiling: random draw 0, January, midnight,
variant priced 10.00 (discounted amount 7.50 ≥ 1). -/
theorem C1_discount_ceiling_witness :
    0 ≤ (0 : ℚ) ∧ (0 : ℚ) < 1 ∧
      (indexTotalDiscount 0 0 0 10 ≤ 90 ∧
        (1 ≤ (10 : ℚ) * (1 - (indexTotalDiscount 0 0 0 10 : ℚ) / 100) →
          0 < indexSalePrice 0 0 0 10)) :=
  ⟨le_refl 0, by norm_num, C1_discount_ceiling 0 0 0 10 (le_refl 0) (by norm_num)⟩

/-- A product metafield as used by the ledger: namespace, key, and the
parsed money value `{amount, currency_code}` (src/index.js lines 94–104). -/
structure Metafield where
  ns : String
  key : String
  amount : ℚ
  currency : String
deriving DecidableEq, Repr

/-- The lookup of src/index.js lines 86–88:
`metafields.find(m => m.namespace === 'price_automation' && m.key === 'original_price')`. -/
def findOriginalPrice (ms : List Metafield) : Option Metafield :=
  ms.find? (fun m => m.ns == "price_automation" && m.key == "original_price")

/-- The read-or-create protocol of src/index.js lines 79–105: look up the
`price_automation/original_price` metafield; if present return it unchanged,
otherwise create one holding `(basePrice * markupPercentage).toFixed(2)`
(markup 2.0) and return it.  The result is the record, the updated metafield
store, and whether a create call was issued. -/
def resolveOriginalPrice (ms : List Metafield) (basePrice : ℚ) :
    Metafield × List Metafield × Bool :=
  match findOriginalPrice ms with
  | some m => (m, ms, false)
  | none =>
      let m : Metafield :=
        ⟨"price_automation", "original_price", toFixed2 (basePrice * 2), "USD"⟩
      (m, ms ++ [m], true)

/-- C5: `resolveReferencePrice` is idempotent.  For any metafield store and
base price, after a first call the stored record exists; a second call with
the same inputs returns exactly the record of the first call, leaves the
store unchanged (no drift), and issues no create call.  Moreover a create
call is issued by the first call exactly when the record was absent. -/
theorem C5_resolve_idempotent (ms : List Metafield) (basePrice : ℚ) :
    (resolveOriginalPrice
        (resolveOriginalPrice ms basePrice).2.1 basePrice).1 =
      (resolveOriginalPrice ms basePrice).1 ∧
    (resolveOriginalPrice
        (resolveOriginalPrice ms basePrice).2.1 basePrice).2.1 =
      (resolveOriginalPrice ms basePrice).2.1 ∧
    (resolveOriginalPrice
        (resolveOriginalPrice ms basePrice).2.1 basePrice).2.2 = false ∧
    ((resolveOriginalPrice ms basePrice).2.2 = true ↔
      findOriginalPrice ms = none) := by
  unfold resolveOriginalPrice
  cases hfind : findOriginalPrice ms with
  | some m =>
      simp [hfind]
  | none =>
      have hfind2 : findOriginalPrice
          (ms ++ [⟨"price_automation", "original_price",
            toFixed2 (basePrice * 2), "USD"⟩]) =
          some ⟨"price_automation", "original_price",
            toFixed2 (basePrice * 2), "USD"⟩ := by
        unfold findOriginalPrice at hfind ⊢
        rw [List.find?_append, hfind]
        simp
      simp [hfind, hfind2]

/-- `DEBOUNCE_TIME` (src/unnamed/part_003 line 18): 30000 ms. -/
def DEBOUNCE_TIME : ℚ := 30000

/-- State of the debounce coordinator: one entry per admitted product id,
paired with the absolute time (ms) at which the scheduled `setTimeout`
removal fires (src/unnamed/part_003 lines 17, 136, 192–194). -/
abbrev DebounceState := List (ℕ × ℚ)

/-- Entries whose scheduled removal has not yet fired at time `now`.  The
`setTimeout(() => processedProducts.delete(productId), DEBOUNCE_TIME)` of
src/unnamed/part_003 lines 192–194 removes an entry automatically once its
TTL elapses; observing the set at time `now` therefore sees exactly the
entries with expiry later than `now`. -/
def purgeExpired (now : ℚ) (s : DebounceState) : DebounceState :=
  s.filter (fun e => decide (now < e.2))

/-- `processedProducts.has(productId)` (src/unnamed/part_003 line 114). -/
def hasEntry (s : DebounceState) (pid : ℕ) : Bool :=
  s.any (fun e => e.1 == pid)

/-- The admission step of the debounce coordinator
(src/unnamed/part_003 lines 113–117 and 136): if an entry for the product
id is still live, reject (the caller no-ops); otherwise insert an entry
whose removal is scheduled `ttl` later and admit. -/
def tryAdmit (now ttl : ℚ) (pid : ℕ) (s : DebounceState) :
    Bool × DebounceState :=
  let s' := purgeExpired now s
  if hasEntry s' pid then (false, s') else (true, (pid, now + ttl) :: s')

/-- C6: for any product id and TTL `T > 0`, a first `tryAdmit` (from a state
with no entry, e.g. the initial empty set) returns true and inserts an
entry; any second `tryAdmit` for the same id within `T` of the first
returns false; and a `tryAdmit` issued once `T` has elapsed since insertion
returns true again, the entry having been removed automatically. -/
theorem C6_debounce (pid : ℕ) (T t1 t2 t3 : ℚ) (hT : 0 < T)
    (h12 : t1 ≤ t2) (h2 : t2 < t1 + T) (h3 : t1 + T ≤ t3) :
    (tryAdmit t1 T pid []).1 = true ∧
    (tryAdmit t2 T pid (tryAdmit t1 T pid []).2).1 = false ∧
    (tryAdmit t3 T pid (tryAdmit t1 T pid []).2).1 = true ∧
    hasEntry (purgeExpired t3 (tryAdmit t1 T pid []).2) pid = false := by
  have e1 : tryAdmit t1 T pid [] = (true, [(pid, t1 + T)]) := by
    simp [tryAdmit, purgeExpired, hasEntry]
  have e2 : purgeExpired t2 [(pid, t1 + T)] = [(pid, t1 + T)] := by
    simp [purgeExpired, h2]
  have e3 : purgeExpired t3 [(pid, t1 + T)] = [] := by
    simp [purgeExpired, not_lt.mpr h3]
  refine ⟨by rw [e1], ?_, ?_, ?_⟩
  · rw [e1]
    simp [tryAdmit, e2, hasEntry]
  · rw [e1]
    simp [tryAdmit, e3, hasEntry]
  · rw [e1, e3]
    simp [hasEntry]

/-- Witness for C6_debounce: id 1, TTL 30000 ms, calls at 0 ms, 10000 ms and
30000 ms. -/
theorem C6_debounce_witness :
    0 < DEBOUNCE_TIME ∧ (0 : ℚ) ≤ 10000 ∧
      (10000 : ℚ) < 0 + DEBOUNCE_TIME ∧ (0 : ℚ) + DEBOUNCE_TIME ≤ 30000 ∧
    ((tryAdmit 0 DEBOUNCE_TIME 1 []).1 = true ∧
      (tryAdmit 10000 DEBOUNCE_TIME 1 (tryAdmit 0 DEBOUNCE_TIME 1 []).2).1 = false ∧
      (tryAdmit 30000 DEBOUNCE_TIME 1 (tryAdmit 0 DEBOUNCE_TIME 1 []).2).1 = true ∧
      hasEntry (purgeExpired 30000 (tryAdmit 0 DEBOUNCE_TIME 1 []).2) 1 = false) :=
  ⟨by norm_num [DEBOUNCE_TIME], by norm_num, by norm_num [DEBOUNCE_TIME],
    by norm_num [DEBOUNCE_TIME],
    C6_debounce 1 DEBOUNCE_TIME 0 10000 30000 (by norm_num [DEBOUNCE_TIME])
      (by norm_num) (by norm_num [DEBOUNCE_TIME]) (by norm_num [DEBOUNCE_TIME])⟩

/-- A product variant: identifier and current price
(compare-at is a write target only in the flows modelled here). -/
structure Variant where
  id : ℕ
  price : ℚ
deriving DecidableEq, Repr

/-- A product as read from the catalog: identifier, display title, type
label and its variants. -/
structure Product where
  id : ℕ
  title : String
  productType : String
  variants : List Variant
deriving DecidableEq, Repr

/-- The JavaScript `String.prototype.includes` on already-lowercased
strings: `pat` occurs contiguously inside `s`. -/
def includesStr (s pat : String) : Bool := decide (pat.toList <:+: s.toList)

/-- `categoryMarkups` (src/unnamed/part_003 lines 20–48): per-category
{min, max} markup-multiplier ranges. -/
def categoryMarkups : List (String × ℚ × ℚ) :=
  [("casual_day_dress", 9/5, 11/5),
   ("party_evening_dress", 23/10, 14/5),
   ("maxi_midi_dress", 2, 5/2),
   ("t_shirts_tanks", 3/2, 9/5),
   ("blouses_shirts", 9/5, 11/5),
   ("knits_sweaters", 2, 12/5),
   ("pants_jeans", 9/5, 11/5),
   ("skirts", 17/10, 2),
   ("leggings", 3/2, 9/5),
   ("workout_sets", 9/5, 11/5),
   ("sports_tops", 3/2, 9/5),
   ("active_leggings", 8/5, 19/10),
   ("loungewear", 17/10, 2),
   ("jackets_coats", 23/10, 14/5),
   ("cardigans_blazers", 2, 12/5),
   ("default", 9/5, 11/5)]

/-- `categoryMarkups[productType] || categoryMarkups.default`
(src/unnamed/part_003 line 76). -/
def lookupMarkup (productType : String) : ℚ × ℚ :=
  match categoryMarkups.find? (fun e => e.1 == productType) with
  | some e => e.2
  | none => (9/5, 11/5)

/-- `determineProductType` (src/unnamed/part_003 lines 50–73): classify a
product into a category bucket by keyword matching on the lowercased title
and product type. -/
def determineProductType (p : Product) : String :=
  let title := p.title.toLower
  let ptype := p.productType.toLower
  if includesStr title "dress" then
    if includesStr title "party" || includesStr title "evening" then
      "party_evening_dress"
    else if includesStr title "maxi" || includesStr title "midi" then
      "maxi_midi_dress"
    else "casual_day_dress"
  else if includesStr title "jacket" || includesStr title "coat" then
    "jackets_coats"
  else if includesStr title "cardigan" || includesStr title "blazer" then
    "cardigans_blazers"
  else if includesStr title "sweater" || includesStr title "knit" then
    "knits_sweaters"
  else if includesStr title "legging" then
    (if includesStr ptype "active" then "active_leggings" else "leggings")
  else if includesStr title "workout" || includesStr title "set" then
    "workout_sets"
  else if includesStr title "sport" || includesStr title "tank" then
    "sports_tops"
  else if includesStr ptype "t-shirt" || includesStr ptype "tank" then
    "t_shirts_tanks"
  else if includesStr ptype "blouse" || includesStr ptype "shirt" then
    "blouses_shirts"
  else if includesStr ptype "pant" || includesStr ptype "jean" then
    "pants_jeans"
  else if includesStr ptype "skirt" then "skirts"
  else "default"

/-- `calculateDiscount` (src/unnamed/part_003 lines 75–93): pick the
category markup range, select min/average/max by price tier, add a random
jitter of `±5 %` (`Math.random() * 0.1 - 0.05`, the draw `r ∈ [0,1)` passed
explicitly), clamp the final multiplier to `[1.2, 3.0]`, and return the
discount `(1 - 1/finalMarkup) * 100` rounded to two decimals
(`.toFixed(2)`, parsed back by the caller). -/
def calculateDiscount (basePrice : ℚ) (productType : String) (r : ℚ) : ℚ :=
  let mk := lookupMarkup productType
  let tier := if basePrice < 30 then mk.1
              else if basePrice < 60 then (mk.1 + mk.2) / 2
              else mk.2
  let fm := tier + (r * (1/10) - 1/20)
  let clamped := max (6/5) (min fm 3)
  toFixed2 ((1 - 1/clamped) * 100)

/-- A write issued against the catalog store by the part_003 flow: a
variant `compare_at_price` update (src/unnamed/part_003 lines 103–105 and
181–183) or a metafield creation (lines 163–173). -/
inductive WriteOp where
  | setCompareAt (variantId : ℕ) (value : Option ℚ)
  | createMetafield (m : Metafield)
deriving DecidableEq, Repr

/-- `clearCompareAtPrice` (src/unnamed/part_003 lines 99–111): set every
variant's `compare_at_price` to null. -/
def clearCompareAtPrice (p : Product) : List WriteOp :=
  p.variants.map (fun v => WriteOp.setCompareAt v.id none)

/-- `updateProductPrice` (src/unnamed/part_003 lines 113–199) as a pure
step.  Inputs: current time, random draw, debounce state, ids of the sale
collection's products, the product, the metafield store.  Output: the
catalog writes issued, the updated metafield store, and the new debounce
state.  Behaviour: reject if a live debounce entry exists (line 114);
otherwise, if the product is not in the sale collection, clear every
variant's compare-at price and return without touching metafields or the
debounce set (lines 130–134); otherwise insert the debounce entry
(line 136, removal scheduled `DEBOUNCE_TIME` later), compute the
category-aware discount from the first variant's price, create the
`original_price` metafield if absent, and write each variant's charm-priced
compare-at value.  A product with no variants makes line 140 throw; the
catch (line 197) deletes the fresh debounce entry, so the state is
unchanged. -/
def part3Update (now r : ℚ) (st : DebounceState) (saleIds : List ℕ)
    (p : Product) (ms : List Metafield) :
    List WriteOp × List Metafield × DebounceState :=
  let active := purgeExpired now st
  if hasEntry active p.id then ([], ms, active)
  else if !(saleIds.contains p.id) then (clearCompareAtPrice p, ms, active)
  else
    match p.variants with
    | [] => ([], ms, active)
    | v0 :: _ =>
        let st' := (p.id, now + DEBOUNCE_TIME) :: active
        let basePrice := v0.price
        let d := calculateDiscount basePrice (determineProductType p) r
        let markup := 100 / (100 - d)
        let compareAt := roundToNicePrice (basePrice * markup)
        let created := (findOriginalPrice ms).isNone
        let newField : Metafield :=
          ⟨"price_automation", "original_price", compareAt, "USD"⟩
        let ms' := if created then ms ++ [newField] else ms
        let createOps := if created then [WriteOp.createMetafield newField] else []
        let variantWrites := p.variants.map (fun v =>
          WriteOp.setCompareAt v.id (some (roundToNicePrice (v.price * markup))))
        (createOps ++ variantWrites, ms', st')

/-- Every markup range in the category table has `1.5 ≤ min ≤ max ≤ 2.8`. -/
lemma markupTable_bounds :
    ∀ e ∈ categoryMarkups, (3/2 : ℚ) ≤ e.2.1 ∧ e.2.1 ≤ e.2.2 ∧ e.2.2 ≤ 14/5 := by
  simp [categoryMarkups]
  norm_num

/-- The looked-up markup range (table hit or the `default` fallback)
satisfies `1.5 ≤ min ≤ max ≤ 2.8`. -/
lemma lookupMarkup_bounds (productType : String) :
    (3/2 : ℚ) ≤ (lookupMarkup productType).1 ∧
      (lookupMarkup productType).1 ≤ (lookupMarkup productType).2 ∧
      (lookupMarkup productType).2 ≤ 14/5 := by
  unfold lookupMarkup
  cases hfind : categoryMarkups.find? (fun e => e.1 == productType) with
  | some e => exact markupTable_bounds e (List.mem_of_find?_eq_some hfind)
  | none => norm_num

/-- Rounding to two decimals moves a value by at most half a cent. -/
lemma abs_toFixed2_sub (q : ℚ) : |toFixed2 q - q| ≤ 1/200 := by
  unfold toFixed2
  have h := abs_sub_round (q * 100)
  rw [abs_sub_comm] at h
  have heq : (round (q * 100) : ℚ) / 100 - q = ((round (q * 100) : ℚ) - q * 100) / 100 := by
    ring
  rw [heq, abs_div]
  rw [show |(100 : ℚ)| = 100 by norm_num]
  linarith

/-- C10: for every base price, category bucket and random jitter draw
`r ∈ [0,1)`, `calculateDiscount` returns a discount percentage inside the
closed band `[100·(1 − 1/1.2), 100·(1 − 1/3.0)]`: the final markup
multiplier is clamped to `[1.2, 3.0]` before the discount is derived (and
the table values keep it strictly inside, leaving room for the two-decimal
rounding). -/
theorem C10_discount_band (basePrice : ℚ) (productType : String) (r : ℚ)
    (hr0 : 0 ≤ r) (hr1 : r < 1) :
    100 * (1 - 1/(6/5)) ≤ calculateDiscount basePrice productType r ∧
      calculateDiscount basePrice productType r ≤ 100 * (1 - 1/3) := by
  obtain ⟨hmn, hmm, hmx⟩ := lookupMarkup_bounds productType
  have hband : ∀ q : ℚ, 29/20 ≤ q → q ≤ 57/20 →
      100 * (1 - 1/(6/5)) ≤ toFixed2 ((1 - 1/(max (6/5) (min q 3))) * 100) ∧
        toFixed2 ((1 - 1/(max (6/5) (min q 3))) * 100) ≤ 100 * (1 - 1/3) := by
    intro q hq1 hq2
    have hminq : min q 3 = q := min_eq_left (by linarith)
    have hmaxq : max (6/5 : ℚ) q = q := max_eq_right (by linarith)
    rw [hminq, hmaxq]
    have hq0 : (0 : ℚ) < q := by linarith
    have hl : 1/q ≤ 20/29 := by
      rw [div_le_div_iff hq0 (by norm_num)]
      linarith
    have hu : (20 : ℚ)/57 ≤ 1/q := by
      rw [div_le_div_iff (by norm_num) hq0]
      linarith
    have habs := abs_le.mp (abs_toFixed2_sub ((1 - 1/q) * 100))
    have hexp : (1 - 1/q) * 100 = 100 - 100 * (1/q) := by ring
    constructor
    · have hx : (900 : ℚ)/29 ≤ (1 - 1/q) * 100 := by rw [hexp]; linarith
      have : (100 : ℚ) * (1 - 1/(6/5)) = 50/3 := by norm_num
      rw [this]
      linarith [habs.1]
    · have hx : (1 - 1/q) * 100 ≤ (3700 : ℚ)/57 := by rw [hexp]; linarith
      have : (100 : ℚ) * (1 - 1/3) = 200/3 := by norm_num
      rw [this]
      linarith [habs.2]
  simp only [calculateDiscount]
  apply hband
  · split_ifs <;> linarith
  · split_ifs <;> linarith

/-- Witness for C10_discount_band: base price 10, bucket `skirts`, draw 0. -/
theorem C10_discount_band_witness :
    0 ≤ (0 : ℚ) ∧ (0 : ℚ) < 1 ∧
      (100 * (1 - 1/(6/5)) ≤ calculateDiscount 10 "skirts" 0 ∧
        calculateDiscount 10 "skirts" 0 ≤ 100 * (1 - 1/3)) :=
  ⟨le_refl 0, by norm_num, C10_discount_band 10 "skirts" 0 (le_refl 0) (by norm_num)⟩

/-- A product id absent from the debounce set stays absent after purging. -/
lemma hasEntry_purge_of_not (t : ℚ) (s : DebounceState) (pid : ℕ)
    (h : hasEntry s pid = false) : hasEntry (purgeExpired t s) pid = false := by
  unfold hasEntry purgeExpired at *
  rw [List.any_eq_false] at *
  intro e he
  exact h e (List.mem_filter.mp he).1

/-- Reduction of `part3Update` on the ineligible path: with no live
debounce entry and the product outside the sale collection, the step emits
exactly the compare-at-clearing writes, leaves the metafield store alone,
and does not insert a debounce entry. -/
lemma part3Update_ineligible (now r : ℚ) (st : DebounceState)
    (saleIds : List ℕ) (p : Product) (ms : List Metafield)
    (hfree : hasEntry (purgeExpired now st) p.id = false)
    (hinel : saleIds.contains p.id = false) :
    part3Update now r st saleIds p ms =
      (clearCompareAtPrice p, ms, purgeExpired now st) := by
  have hmem : p.id ∉ saleIds := by
    intro hm
    rw [List.contains_eq_any_beq] at hinel
    rw [List.any_eq_false] at hinel
    exact absurd (beq_self_eq_true p.id) (by simpa using hinel p.id hm)
  unfold part3Update
  simp [hfree, hinel, hmem]

/-- C7: when a product's eligibility is false (it is not in the sale
collection) and its event is admitted, processing sets the compare-at price
of every variant to null, leaves the `ReferencePriceRecord` metafield store
unchanged, performs no discount computation or price write (every emitted
write is a null compare-at write), and inserts no debounce entry. -/
theorem C7_deactivation_clears (now r : ℚ) (st : DebounceState)
    (saleIds : List ℕ) (p : Product) (ms : List Metafield)
    (hfree : hasEntry (purgeExpired now st) p.id = false)
    (hinel : saleIds.contains p.id = false) :
    (part3Update now r st saleIds p ms).1 = clearCompareAtPrice p ∧
    (part3Update now r st saleIds p ms).2.1 = ms ∧
    (part3Update now r st saleIds p ms).2.2 = purgeExpired now st ∧
    (∀ v ∈ p.variants,
        WriteOp.setCompareAt v.id none ∈ (part3Update now r st saleIds p ms).1) ∧
    (∀ w ∈ (part3Update now r st saleIds p ms).1,
        ∃ v ∈ p.variants, w = WriteOp.setCompareAt v.id none) := by
  rw [part3Update_ineligible now r st saleIds p ms hfree hinel]
  refine ⟨rfl, rfl, rfl, ?_, ?_⟩
  · intro v hv
    exact List.mem_map.mpr ⟨v, hv, rfl⟩
  · intro w hw
    obtain ⟨v, hv, hw⟩ := List.mem_map.mp hw
    exact ⟨v, hv, hw.symm⟩

/-- Witness for C7_deactivation_clears: a one-variant product with id 1,
empty debounce set, empty sale collection. -/
theorem C7_deactivation_clears_witness :
    hasEntry (purgeExpired 0 []) 1 = false ∧
      ([] : List ℕ).contains 1 = false ∧
      ((part3Update 0 0 [] [] ⟨1, "Shirt", "shirt", [⟨11, 20⟩]⟩ []).1 =
          clearCompareAtPrice ⟨1, "Shirt", "shirt", [⟨11, 20⟩]⟩ ∧
        (part3Update 0 0 [] [] ⟨1, "Shirt", "shirt", [⟨11, 20⟩]⟩ []).2.1 = [] ∧
        (part3Update 0 0 [] [] ⟨1, "Shirt", "shirt", [⟨11, 20⟩]⟩ []).2.2 =
          purgeExpired 0 [] ∧
        (∀ v ∈ Product.variants ⟨1, "Shirt", "shirt", [⟨11, 20⟩]⟩,
            WriteOp.setCompareAt v.id none ∈
              (part3Update 0 0 [] [] ⟨1, "Shirt", "shirt", [⟨11, 20⟩]⟩ []).1) ∧
        (∀ w ∈ (part3Update 0 0 [] [] ⟨1, "Shirt", "shirt", [⟨11, 20⟩]⟩ []).1,
            ∃ v ∈ Product.variants ⟨1, "Shirt", "shirt", [⟨11, 20⟩]⟩,
              w = WriteOp.setCompareAt v.id none)) :=
  ⟨rfl, rfl, C7_deactivation_clears 0 0 [] [] ⟨1, "Shirt", "shirt", [⟨11, 20⟩]⟩ []
    rfl rfl⟩

/-- C9: in the category-aware variant, a product failing the
sale-collection eligibility check is never added to the debounce set: after
a first admitted event for an ineligible product the set still has no entry
for it, and a second event at any later time is again admitted (not
rejected as a duplicate) and re-runs the clear-compare-at path, leaving the
metafield store untouched. -/
theorem C9_ineligible_skips_debounce (t1 t2 r1 r2 : ℚ) (st : DebounceState)
    (saleIds : List ℕ) (p : Product) (ms : List Metafield)
    (hinel : saleIds.contains p.id = false)
    (hfresh : hasEntry (purgeExpired t1 st) p.id = false) :
    hasEntry (part3Update t1 r1 st saleIds p ms).2.2 p.id = false ∧
    (part3Update t2 r2 (part3Update t1 r1 st saleIds p ms).2.2
        saleIds p ms).1 = clearCompareAtPrice p ∧
    (part3Update t2 r2 (part3Update t1 r1 st saleIds p ms).2.2
        saleIds p ms).2.1 = ms ∧
    hasEntry (part3Update t2 r2 (part3Update t1 r1 st saleIds p ms).2.2
        saleIds p ms).2.2 p.id = false := by
  rw [part3Update_ineligible t1 r1 st saleIds p ms hfresh hinel]
  have h1 : hasEntry (purgeExpired t1 st) p.id = false := hfresh
  have h2 : hasEntry (purgeExpired t2 (purgeExpired t1 st)) p.id = false :=
    hasEntry_purge_of_not t2 _ p.id h1
  rw [part3Update_ineligible t2 r2 (purgeExpired t1 st) saleIds p ms h2 hinel]
  exact ⟨h1, rfl, rfl, h2⟩

/-- Witness for C9_ineligible_skips_debounce: product id 1, events at times
0 and 5, empty sale collection. -/
theorem C9_ineligible_skips_debounce_witness :
    ([] : List ℕ).contains 1 = false ∧
      hasEntry (purgeExpired 0 []) 1 = false ∧
      (hasEntry (part3Update 0 0 [] [] ⟨1, "Tee", "t-shirt", [⟨7, 15⟩]⟩ []).2.2 1 = false ∧
        (part3Update 5 0 (part3Update 0 0 [] [] ⟨1, "Tee", "t-shirt", [⟨7, 15⟩]⟩ []).2.2
            [] ⟨1, "Tee", "t-shirt", [⟨7, 15⟩]⟩ []).1 =
          clearCompareAtPrice ⟨1, "Tee", "t-shirt", [⟨7, 15⟩]⟩ ∧
        (part3Update 5 0 (part3Update 0 0 [] [] ⟨1, "Tee", "t-shirt", [⟨7, 15⟩]⟩ []).2.2
            [] ⟨1, "Tee", "t-shirt", [⟨7, 15⟩]⟩ []).2.1 = [] ∧
        hasEntry (part3Update 5 0
            (part3Update 0 0 [] [] ⟨1, "Tee", "t-shirt", [⟨7, 15⟩]⟩ []).2.2
            [] ⟨1, "Tee", "t-shirt", [⟨7, 15⟩]⟩ []).2.2 1 = false) :=
  ⟨rfl, rfl, C9_ineligible_skips_debounce 0 5 0 0 [] []
    ⟨1, "Tee", "t-shirt", [⟨7, 15⟩]⟩ [] rfl rfl⟩

/-- One catalog write of the per-variant loop of src/index.js
lines 135–138: the variant id, the sale price, and the compare-at price
sent to `productVariant.update`. -/
structure VariantWrite where
  variantId : ℕ
  salePrice : ℚ
  compareAtPrice : ℚ
deriving DecidableEq, Repr

/-- The per-variant loop of `updateProductPrice` (src/index.js
lines 117–138): for every variant, unconditionally compute
`compare_at_price = applyPsychologicalPricing(variantPrice * 2)` and
`price = applyPsychologicalPricing(variantPrice * (1 - totalDiscount/100))`
and issue the write. -/
def indexVariantWrites (r : ℚ) (month hour : ℕ) (variants : List Variant) :
    List VariantWrite :=
  variants.map (fun v =>
    ⟨v.id, indexSalePrice r month hour v.price,
      applyPsychologicalPricing (v.price * 2)⟩)

/-- C4, counterexample.  The claim states the invariant
`sale price < reference price` is checked before every per-variant write
and violating writes are skipped.  No such check exists: for a variant
priced 0.40 with base discount 25 the computed sale and compare-at prices
are both `-0.01` (the invariant fails), yet the write is still emitted. -/
theorem C4_counterexample :
    ¬ (∀ (r : ℚ) (month hour : ℕ) (vs : List Variant), 0 ≤ r → r < 1 →
        ∀ w ∈ indexVariantWrites r month hour vs,
          w.salePrice < w.compareAtPrice) := by
  intro h
  have hmem : (⟨1, indexSalePrice 0 0 0 (2/5),
      applyPsychologicalPricing (2/5 * 2)⟩ : VariantWrite) ∈
      indexVariantWrites 0 0 0 [⟨1, 2/5⟩] := by
    simp [indexVariantWrites]
  have h2 := h 0 0 0 [⟨1, 2/5⟩] (by norm_num) (by norm_num) _ hmem
  norm_num [indexSalePrice, indexTotalDiscount, getRandomDiscount,
    getSeasonalBonus, getVolumeDiscount, isLimitedTimeOffer,
    applyPsychologicalPricing] at h2

/-- C4 (amended): no sale-versus-reference invariant check is performed
before the per-variant writes: the loop emits exactly one write per variant
unconditionally (one for every variant, and nothing else), even when the
computed sale price is not below the computed compare-at price. -/
theorem C4_write_unconditional (r : ℚ) (month hour : ℕ) (vs : List Variant) :
    (indexVariantWrites r month hour vs).length = vs.length ∧
    ∀ v ∈ vs, (⟨v.id, indexSalePrice r month hour v.price,
        applyPsychologicalPricing (v.price * 2)⟩ : VariantWrite) ∈
      indexVariantWrites r month hour vs := by
  refine ⟨by simp [indexVariantWrites], ?_⟩
  intro v hv
  exact List.mem_map.mpr ⟨v, hv, rfl⟩

/-- Witness for C4_write_unconditional on the violating variant itself. -/
theorem C4_write_unconditional_witness :
    (indexVariantWrites 0 0 0 [⟨1, 2/5⟩]).length = [(⟨1, 2/5⟩ : Variant)].length ∧
      ∀ v ∈ [(⟨1, 2/5⟩ : Variant)],
        (⟨v.id, indexSalePrice 0 0 0 v.price,
            applyPsychologicalPricing (v.price * 2)⟩ : VariantWrite) ∈
          indexVariantWrites 0 0 0 [⟨1, 2/5⟩] :=
  C4_write_unconditional 0 0 0 [⟨1, 2/5⟩]

/-- Outcome of attempting one item inside a try/catch-guarded loop:
the write either succeeded or failed-and-was-logged. -/
inductive ItemOutcome where
  | ok (id : ℕ)
  | failed (id : ℕ)
deriving DecidableEq, Repr

/-- The per-variant try/catch loop (src/index.js lines 117–153,
src/unnamed/part_003 lines 176–188): each variant's write is attempted and
any error is caught inside the loop body, so the loop always continues with
the next variant.  Which writes fail is abstracted as an oracle. -/
def variantLoop (failing : ℕ → Bool) (vs : List Variant) : List ItemOutcome :=
  vs.map (fun v =>
    if failing v.id then ItemOutcome.failed v.id else ItemOutcome.ok v.id)

/-- The per-product loop of a collection sweep (src/index.js
lines 286–303): each product's processing is wrapped in try/catch and
errors resolve the promise, so the sweep always continues with the next
product. -/
def sweepLoop (failing : ℕ → Bool) (pids : List ℕ) : List ItemOutcome :=
  pids.map (fun pid =>
    if failing pid then ItemOutcome.failed pid else ItemOutcome.ok pid)

/-- C8: per-variant and per-product failures are isolated.  Every variant
receives an outcome no matter which writes fail (same for every product in
a sweep), and the outcome at position `i` depends only on whether that
item's own write fails — changing the failure behaviour of every other
item leaves it unchanged. -/
theorem C8_failure_isolation (failing g : ℕ → Bool) (vs : List Variant)
    (pids : List ℕ) :
    (variantLoop failing vs).length = vs.length ∧
    (sweepLoop failing pids).length = pids.length ∧
    (∀ v ∈ vs, (if failing v.id then ItemOutcome.failed v.id
        else ItemOutcome.ok v.id) ∈ variantLoop failing vs) ∧
    (∀ i (hi : i < vs.length) (h1 : i < (variantLoop failing vs).length)
        (h2 : i < (variantLoop g vs).length),
      failing (vs.get ⟨i, hi⟩).id = g (vs.get ⟨i, hi⟩).id →
        (variantLoop failing vs).get ⟨i, h1⟩ = (variantLoop g vs).get ⟨i, h2⟩) ∧
    (∀ i (hi : i < pids.length) (h1 : i < (sweepLoop failing pids).length)
        (h2 : i < (sweepLoop g pids).length),
      failing (pids.get ⟨i, hi⟩) = g (pids.get ⟨i, hi⟩) →
        (sweepLoop failing pids).get ⟨i, h1⟩ = (sweepLoop g pids).get ⟨i, h2⟩) := by
  refine ⟨by simp [variantLoop], by simp [sweepLoop], ?_, ?_, ?_⟩
  · intro v hv
    exact List.mem_map.mpr ⟨v, hv, rfl⟩
  · intro i hi h1 h2 hsame
    simp only [List.get_eq_getElem] at hsame
    simp [variantLoop, hsame]
  · intro i hi h1 h2 hsame
    simp only [List.get_eq_getElem] at hsame
    simp [sweepLoop, hsame]

/-- Witness for C8_failure_isolation: two variants where the first write
fails and the second succeeds, two products where the first fails. -/
theorem C8_failure_isolation_witness :
    (variantLoop (fun n => n == 1) [⟨1, 10⟩, ⟨2, 20⟩]).length =
        [(⟨1, 10⟩ : Variant), ⟨2, 20⟩].length ∧
      (sweepLoop (fun n => n == 1) [1, 2]).length = [1, 2].length ∧
      (∀ v ∈ [(⟨1, 10⟩ : Variant), ⟨2, 20⟩],
        (if (fun n => n == 1) v.id then ItemOutcome.failed v.id
          else ItemOutcome.ok v.id) ∈
            variantLoop (fun n => n == 1) [⟨1, 10⟩, ⟨2, 20⟩]) ∧
      (∀ i (hi : i < [(⟨1, 10⟩ : Variant), ⟨2, 20⟩].length)
          (h1 : i < (variantLoop (fun n => n == 1) [⟨1, 10⟩, ⟨2, 20⟩]).length)
          (h2 : i < (variantLoop (fun _ => false) [⟨1, 10⟩, ⟨2, 20⟩]).length),
        (fun n => n == 1) ([(⟨1, 10⟩ : Variant), ⟨2, 20⟩].get ⟨i, hi⟩).id =
            (fun _ => false) ([(⟨1, 10⟩ : Variant), ⟨2, 20⟩].get ⟨i, hi⟩).id →
          (variantLoop (fun n => n == 1) [⟨1, 10⟩, ⟨2, 20⟩]).get ⟨i, h1⟩ =
            (variantLoop (fun _ => false) [⟨1, 10⟩, ⟨2, 20⟩]).get ⟨i, h2⟩) ∧
      (∀ i (hi : i < [1, 2].length)
          (h1 : i < (sweepLoop (fun n => n == 1) [1, 2]).length)
          (h2 : i < (sweepLoop (fun _ => false) [1, 2]).length),
        (fun n => n == 1) ([1, 2].get ⟨i, hi⟩) =
            (fun _ => false) ([1, 2].get ⟨i, hi⟩) →
          (sweepLoop (fun n => n == 1) [1, 2]).get ⟨i, h1⟩ =
            (sweepLoop (fun _ => false) [1, 2]).get ⟨i, h2⟩) :=
  C8_failure_isolation (fun n => n == 1) (fun _ => false) [⟨1, 10⟩, ⟨2, 20⟩] [1, 2]

end PriceAdjuster
